import Mathlib

/-!
Verification development for the repository pipeline orchestrator
(`orchestrator/pipeline.py` and its collaborators).  Python code is shallowly
embedded: pure helpers become Lean functions over `List Char` / `String`,
stage handlers become functions from an explicit filesystem state plus an
oracle describing the outcomes of external process launches to an
`Except`-value (an `Except.error` models an uncaught Python exception), and
the stage engine becomes a state-passing function over a per-stage cache map.
Python `float` arithmetic in the coverage path is modelled with `ℚ`;
text processing models the ASCII fragment of Python's `str` methods and of
the two `re` patterns used by the summary parser.
-/

namespace Orchestrator

/-- Characters treated as whitespace by the model of Python `str.strip()`
(the ASCII whitespace set). -/
def pyWs (c : Char) : Bool :=
  c = ' ' || c = '\t' || c = '\n' || c = '\r' || c = '\x0b' || c = '\x0c'

/-- Drop characters satisfying `p` from both ends of a character list. -/
def stripWhile (p : Char → Bool) (cs : List Char) : List Char :=
  ((cs.dropWhile p).reverse.dropWhile p).reverse

/-- Model of Python `str.strip()` (ASCII whitespace). -/
def pyStrip (s : String) : String :=
  String.mk (stripWhile pyWs s.data)

/-- Model of Python `str.splitlines()` on `\n`, `\r\n` and `\r`
(worker on character lists; a trailing terminator produces no empty line,
matching Python). -/
def splitlinesGo (acc : List Char) : List Char → List (List Char)
  | [] => [acc.reverse]
  | '\r' :: '\n' :: rest =>
      acc.reverse :: (if rest.isEmpty then [] else splitlinesGo [] rest)
  | '\n' :: rest =>
      acc.reverse :: (if rest.isEmpty then [] else splitlinesGo [] rest)
  | '\r' :: rest =>
      acc.reverse :: (if rest.isEmpty then [] else splitlinesGo [] rest)
  | c :: rest => splitlinesGo (c :: acc) rest

/-- Model of Python `str.splitlines()` (empty string yields no lines). -/
def pySplitlines (s : String) : List String :=
  if s.data.isEmpty then [] else (splitlinesGo [] s.data).map String.mk

/-- Digit test for the `\d` class of the two summary regexes (ASCII). -/
def isDigitCh (c : Char) : Bool :=
  '0' ≤ c && c ≤ '9'

/-- Character class `[A-Za-z_-]` of the two summary regexes. -/
def isLabelCh (c : Char) : Bool :=
  c.isAlpha || c = '_' || c = '-'

/-- Value of a digit string, as Python `int()` on a `\d+` match. -/
def digitsToNat (ds : List Char) : Nat :=
  ds.foldl (fun n c => n * 10 + (c.toNat - 48)) 0

/-- States of the automaton for the anchored group-list pattern
`\d+ [A-Za-z_-]+(?:, \d+ [A-Za-z_-]+)*` (the part of the bare summary regex
before the literal `" in "`). -/
inductive StatsState
  | d0
  | d1
  | l0
  | l1
  | comma1
deriving DecidableEq

/-- One transition of the group-list automaton. -/
def statsStep : StatsState → Char → Option StatsState
  | .d0, c => if isDigitCh c then some .d1 else none
  | .d1, c =>
      if isDigitCh c then some .d1 else if c = ' ' then some .l0 else none
  | .l0, c => if isLabelCh c then some .l1 else none
  | .l1, c =>
      if isLabelCh c then some .l1 else if c = ',' then some .comma1 else none
  | .comma1, c => if c = ' ' then some .d0 else none

/-- Run the group-list automaton; acceptance requires ending inside a label. -/
def statsRun : StatsState → List Char → Bool
  | s, [] => s = .l1
  | s, c :: rest =>
      match statsStep s c with
      | none => false
      | some s2 => statsRun s2 rest

/-- Full match of `\d+ [A-Za-z_-]+(?:, \d+ [A-Za-z_-]+)*` against a whole
character list. -/
def validStats (cs : List Char) : Bool :=
  statsRun .d0 cs

/-- Search for a decomposition `pre ++ " in " ++ post` with `post` nonempty
and `pre` a valid group list; `pre` is threaded reversed.  This realizes the
regex `^\d+ [A-Za-z_-]+(?:, \d+ [A-Za-z_-]+)* in .+$` used on stripped
lines, which have no line separators, so `.+` is plain nonemptiness. -/
def bareAux (pre : List Char) : List Char → Bool
  | [] => false
  | c :: tail =>
      (match c :: tail with
       | ' ' :: 'i' :: 'n' :: ' ' :: rest2 =>
           !rest2.isEmpty && validStats pre.reverse
       | _ => false)
      || bareAux (c :: pre) tail

/-- Model of `re.match(r"^\d+ [A-Za-z_-]+(?:, \d+ [A-Za-z_-]+)* in .+$", s)`
viewed as a boolean full-line test. -/
def bareMatch (s : String) : Bool :=
  bareAux [] s.data

/-- Containment of the token `" in "`, as Python `" in " in stripped`. -/
def hasInToken : List Char → Bool
  | ' ' :: 'i' :: 'n' :: ' ' :: _ => true
  | _ :: rest => hasInToken rest
  | [] => false

/-- Test for a `===`-prefixed line, as Python `stripped.startswith("===")`. -/
def startsEq3 : List Char → Bool
  | '=' :: '=' :: '=' :: _ => true
  | _ => false

/-- The banner test of the summary scan: a stripped line starting with `===`
and containing `" in "`. -/
def bannerMatch (s : String) : Bool :=
  startsEq3 s.data && hasInToken s.data

/-- Model of Python `stripped.strip("= ").strip()` applied to a banner line. -/
def stripBanner (s : String) : String :=
  pyStrip (String.mk (stripWhile (fun c => c = '=' || c = ' ') s.data))

/-- The backwards scan of `_parse_pytest_summary`: walk the output lines from
the end, skip blank lines, and stop at the first banner line (taking its
`"= "`-stripped text) or bare summary line (taken verbatim). -/
def findSummaryGo : List String → Option String
  | [] => none
  | line :: rest =>
      let stripped := pyStrip line
      if stripped = "" then findSummaryGo rest
      else if bannerMatch stripped then some (stripBanner stripped)
      else if bareMatch stripped then some stripped
      else findSummaryGo rest

/-- Locate the summary line of a pytest output, scanning lines from the end. -/
def findSummaryLine (output : String) : Option String :=
  findSummaryGo (pySplitlines output).reverse

/-- The part of the summary line before the first `" in "`, as Python
`summary_line.split(" in ", 1)[0]` (the whole line when absent). -/
def beforeInToken : List Char → List Char
  | ' ' :: 'i' :: 'n' :: ' ' :: _ => []
  | c :: rest => c :: beforeInToken rest
  | [] => []

/-- Split a character list on commas, as Python `str.split(",")`. -/
def splitOnComma : List Char → List (List Char)
  | [] => [[]]
  | ',' :: rest => [] :: splitOnComma rest
  | c :: rest =>
      match splitOnComma rest with
      | [] => [[c]]
      | p :: ps => (c :: p) :: ps

/-- The nine counters accumulated by `_parse_pytest_summary`. -/
structure PytestCounts where
  passed : Nat
  failed : Nat
  errors : Nat
  skipped : Nat
  xfailed : Nat
  xpassed : Nat
  rerun : Nat
  deselected : Nat
  warnings : Nat
deriving DecidableEq, Repr

/-- The all-zero counts record that `_parse_pytest_summary` starts from. -/
def zeroCounts : PytestCounts :=
  ⟨0, 0, 0, 0, 0, 0, 0, 0, 0⟩

/-- The label dispatch of `_parse_pytest_summary`: the nine direct keys, then
the `elif` synonym sets `error/errors`, `failures`, `passes`,
`warning/warnings`, `rerun/reruns`; anything else is ignored. -/
def foldLabel (counts : PytestCounts) (label : String) (value : Nat) :
    PytestCounts :=
  if label = "passed" then { counts with passed := counts.passed + value }
  else if label = "failed" then { counts with failed := counts.failed + value }
  else if label = "errors" then { counts with errors := counts.errors + value }
  else if label = "skipped" then
    { counts with skipped := counts.skipped + value }
  else if label = "xfailed" then
    { counts with xfailed := counts.xfailed + value }
  else if label = "xpassed" then
    { counts with xpassed := counts.xpassed + value }
  else if label = "rerun" then { counts with rerun := counts.rerun + value }
  else if label = "deselected" then
    { counts with deselected := counts.deselected + value }
  else if label = "warnings" then
    { counts with warnings := counts.warnings + value }
  else if label = "error" ∨ label = "errors" then
    { counts with errors := counts.errors + value }
  else if label = "failures" then
    { counts with failed := counts.failed + value }
  else if label = "passes" then
    { counts with passed := counts.passed + value }
  else if label = "warning" ∨ label = "warnings" then
    { counts with warnings := counts.warnings + value }
  else if label = "rerun" ∨ label = "reruns" then
    { counts with rerun := counts.rerun + value }
  else counts

/-- Every lower-cased label that `foldLabel` recognizes: the nine counter
keys and the five extra synonym spellings. -/
def recognizedLabels : List String :=
  ["passed", "failed", "errors", "skipped", "xfailed", "xpassed", "rerun",
   "deselected", "warnings", "error", "failures", "passes", "warning",
   "reruns"]

/-- Model of `re.match(r"(?P<count>\d+) (?P<label>[A-Za-z_-]+)", chunk)`:
a prefix match returning the digit count and the greedy label characters. -/
def matchChunk (cs : List Char) : Option (Nat × List Char) :=
  let ds := cs.takeWhile isDigitCh
  let r1 := cs.dropWhile isDigitCh
  if ds.isEmpty then none
  else
    match r1 with
    | ' ' :: r2 =>
        let ls := r2.takeWhile isLabelCh
        if ls.isEmpty then none else some (digitsToNat ds, ls)
    | _ => none

/-- Process one comma chunk of the summary line: strip it, prefix-match
`"<integer> <label>"`, lower-case the label and dispatch via `foldLabel`;
a chunk that does not match is skipped. -/
def applyChunk (counts : PytestCounts) (chunk : List Char) : PytestCounts :=
  match matchChunk (stripWhile pyWs chunk) with
  | none => counts
  | some (value, ls) =>
      foldLabel counts (String.mk (ls.map Char.toLower)) value

/-- Embedding of `_parse_pytest_summary`: find the summary line scanning from
the end, then fold every comma chunk of its part before `" in "` into the
counts, starting from all zeroes. -/
def parsePytestSummary (output : String) : PytestCounts :=
  match findSummaryLine output with
  | none => zeroCounts
  | some summary =>
      if summary = "" then zeroCounts
      else
        ((splitOnComma (beforeInToken summary.data)).foldl
          applyChunk zeroCounts)

/-- Code-point comparison of character lists, as Python compares strings:
a prefix is below every extension, otherwise the first differing position
decides. -/
def listCharLe : List Char → List Char → Bool
  | [], _ => true
  | _ :: _, [] => false
  | c :: cs, d :: ds => if c = d then listCharLe cs ds else decide (c < d)

/-- Python string `<=` on code points. -/
def strLe (a b : String) : Bool :=
  listCharLe a.data b.data

/-- Insert a string into a list keeping `strLe`-order, the step of the model
of Python `sorted`. -/
def insertStr (x : String) : List String → List String
  | [] => [x]
  | y :: ys => if strLe x y then x :: y :: ys else y :: insertStr x ys

/-- Model of Python `sorted` on strings (insertion sort under `strLe`). -/
def sortStr : List String → List String
  | [] => []
  | x :: xs => insertStr x (sortStr xs)

/-- Adjacent-pairs sortedness under `strLe`. -/
def isSortedStr : List String → Bool
  | [] => true
  | [_] => true
  | x :: y :: rest => strLe x y && isSortedStr (y :: rest)

/-- The toolchain probe record assembled by `_detect_toolchain`. -/
structure Toolchain where
  pyproject : Bool
  poetry : Bool
  hatch : Bool
  build_backend : Option String
  requirements : Bool
  environment_yml : Bool
  ci_workflows : List String
deriving DecidableEq, Repr

/-- Input to the toolchain probe: the facts `_detect_toolchain` reads from the
checkout tree.  `workflowsDir = none` models an absent `.github/workflows`
directory, `some names` its entry names in arbitrary listing order; parsed
`pyproject.toml` facts are given directly (a malformed file parses to the
empty dict, i.e. both section flags false and no backend). -/
structure RepoTree where
  pyprojectToml : Bool
  poetrySection : Bool
  hatchSection : Bool
  buildBackend : Option String
  requirementsTxt : Bool
  environmentYml : Bool
  workflowsDir : Option (List String)
deriving DecidableEq, Repr

/-- Glob test for `*.yml` under the workflows directory: a non-hidden entry
name ending in `.yml`. -/
def globYml (n : String) : Bool :=
  (match n.data with
   | [] => false
   | c :: _ => c ≠ '.')
  && ['.', 'y', 'm', 'l'].isSuffixOf n.data

/-- Glob test for `*.yaml` under the workflows directory. -/
def globYaml (n : String) : Bool :=
  (match n.data with
   | [] => false
   | c :: _ => c ≠ '.')
  && ['.', 'y', 'a', 'm', 'l'].isSuffixOf n.data

/-- Workflow entry names turned into repo-relative path strings. -/
def workflowRel (n : String) : String :=
  ".github/workflows/" ++ n

/-- The sorted `*.yml` block of the `ci_workflows` list. -/
def workflowsYmlBlock (names : List String) : List String :=
  sortStr ((names.filter globYml).map workflowRel)

/-- The sorted `*.yaml` block of the `ci_workflows` list. -/
def workflowsYamlBlock (names : List String) : List String :=
  sortStr ((names.filter globYaml).map workflowRel)

/-- Embedding of `_detect_toolchain`: presence booleans plus the workflow
list, built as the sorted `*.yml` paths followed by the sorted `*.yaml`
paths (two separately sorted glob results concatenated with `+=`). -/
def detectToolchain (rt : RepoTree) : Toolchain :=
  { pyproject := rt.pyprojectToml
    poetry := rt.poetrySection
    hatch := rt.hatchSection
    build_backend := rt.buildBackend
    requirements := rt.requirementsTxt
    environment_yml := rt.environmentYml
    ci_workflows :=
      match rt.workflowsDir with
      | none => []
      | some names => workflowsYmlBlock names ++ workflowsYamlBlock names }

/-- Embedding of `_choose_strategy`: the fixed precedence chain over the
probe (a nonempty workflow list is Python-truthy). -/
def chooseStrategy (t : Toolchain) : String :=
  if t.ci_workflows ≠ [] then "activ"
  else if t.poetry then "poetry"
  else if t.environment_yml then "conda"
  else if t.requirements then "pip"
  else "custom"

/-- Parsed `pyproject.toml` facts read by `_infer_project_extras`:
the key set of `[project.optional-dependencies]` and the names of
`tool.poetry.group` entries that are tables with a truthy `dependencies`
value. -/
structure PyProject where
  optionalDeps : List String
  poetryGroups : List String
deriving DecidableEq, Repr

/-- The fixed candidate tuple `("dev", "test", "tests", "ci")`. -/
def extrasCandidates : List String :=
  ["dev", "test", "tests", "ci"]

/-- Embedding of `_infer_project_extras`: candidates found among the
optional-dependency keys, then candidates among the populated poetry groups,
deduplicated and sorted (`sorted(set(extras))`); an absent or malformed
`pyproject.toml` is `none` and yields no extras. -/
def inferProjectExtras (pp : Option PyProject) : List String :=
  match pp with
  | none => []
  | some p =>
      sortStr
        ((extrasCandidates.filter (· ∈ p.optionalDeps)
          ++ extrasCandidates.filter (· ∈ p.poetryGroups)).dedup)

/-- A checkout as read by `_build_install_commands`: the relative paths that
exist, and the parsed `pyproject.toml` facts (`none` when the file is absent
or unparseable). -/
structure Checkout where
  files : List String
  pyproject : Option PyProject
deriving DecidableEq, Repr

/-- The fixed tuple of conventional requirement-file locations. -/
def requirementFiles : List String :=
  ["requirements.txt", "requirements-dev.txt", "requirements-test.txt",
   "requirements/tests.txt", "requirements/dev.txt", "requirements/test.txt",
   "requirements/ci.txt"]

/-- The editable install target: `"."` without extras, else
`".[e1,e2,...]"`. -/
def editableTarget (extras : List String) : String :=
  if extras = [] then "." else ".[" ++ String.intercalate "," extras ++ "]"

/-- Embedding of `_build_install_commands`: one `pip install -r` per present
conventional requirements file in the fixed order, then an editable
self-install when a manifest-style file exists, then always
`pip install pytest coverage` last. -/
def buildInstallCommands (co : Checkout) : List (List String) :=
  ((requirementFiles.filter (· ∈ co.files)).map
      (fun rel => ["python", "-m", "pip", "install", "-r", rel]))
  ++ (if "setup.py" ∈ co.files ∨ "setup.cfg" ∈ co.files
        ∨ "pyproject.toml" ∈ co.files then
        [["python", "-m", "pip", "install", "-e",
          editableTarget (inferProjectExtras co.pyproject)]]
      else [])
  ++ [["python", "-m", "pip", "install", "pytest", "coverage"]]

/-- Embedding of `_build_marker_expression`: each non-empty excluded marker
becomes a `not <marker>` clause, clauses joined by `" and "`. -/
def buildMarkerExpression (markers : List String) : String :=
  String.intercalate " and "
    ((markers.filter (· ≠ "")).map (fun m => "not " ++ m))

/-- Result of one external process launch, as the completed process returned
by `run_command` with `check=False`. -/
structure CmdRes where
  returncode : Int
  stdout : String
  stderr : String
deriving DecidableEq, Repr

/-- One entry of the Build stage's install command log. -/
structure CmdLogEntry where
  command : List String
  returncode : Int
  stdout : String
  stderr : String
deriving DecidableEq, Repr

/-- The common `StageResult` envelope with a per-stage typed details
payload (`data["stage"]`, `data["status"]`, `data["details"]`). -/
structure StageRes (D : Type) where
  name : String
  status : String
  details : D
deriving DecidableEq, Repr

/-- The slice of Plan's cached details read by later handlers: the selected
strategy, the lockfile source list, and the test configuration. -/
structure PlanData where
  strategy : String
  lockfile_sources : List String
  markers_exclude : List String
deriving DecidableEq, Repr

/-- The slice of Build's cached details read by Package. -/
structure BuildData where
  env_manifest : String
deriving DecidableEq, Repr

/-- The slice of Test's cached details read by Package. -/
structure TestData where
  index_path : String
  coverage_report_path : String
  logs : List String
deriving DecidableEq, Repr

/-- On-disk pipeline state as seen by the stage handlers: for each earlier
stage the parsed cache-file content when the cache file exists (`none`
models an absent file), plus presence of the manifest artifact written by
Package. -/
structure PipelineFs where
  discoverCache : Option Toolchain
  planCache : Option PlanData
  buildCache : Option BuildData
  testCache : Option TestData
  packageCache : Bool
  manifestArtifact : Bool
deriving DecidableEq, Repr

/-- Details emitted by the Plan handler (the `plan` payload; the nested
builder inputs and test configuration are flattened into fields). -/
structure PlanDetails where
  strategy : String
  python_version : String
  requires_network : Bool
  lockfile_sources : List String
  runner : String
  markers_exclude : List String
  timeout_s : Option Nat
deriving DecidableEq, Repr

/-- Embedding of `_stage_plan`: requires Discover's cache (fatal
`RuntimeError` otherwise), applies the strategy selector to the stored
probe and assembles the plan payload; always status `completed`. -/
def stagePlan (fs : PipelineFs) (runner : String) (markersExclude : List String)
    (timeout : Option Nat) : Except String (StageRes PlanDetails) :=
  match fs.discoverCache with
  | none => .error "Discover stage must be executed before planning."
  | some toolchain =>
      .ok
        { name := "plan"
          status := "completed"
          details :=
            { strategy := chooseStrategy toolchain
              python_version := "3.11"
              requires_network := toolchain.ci_workflows ≠ []
              lockfile_sources :=
                (if toolchain.pyproject then ["pyproject.toml"] else [])
                ++ (if toolchain.requirements then ["requirements.txt"] else [])
                ++ (if toolchain.environment_yml then ["environment.yml"]
                    else [])
              runner := runner
              markers_exclude := markersExclude
              timeout_s := timeout } }

/-- The Build handler's install loop: run the commands in order against the
oracle `exec` (the result of the i-th launch), log each attempted command,
and stop at the first non-zero exit; the boolean reports whether a command
failed.  `i` is the index of the next launch. -/
def installLoop (exec : Nat → CmdRes) :
    List (List String) → Nat → List CmdLogEntry × Bool
  | [], _ => ([], false)
  | c :: rest, i =>
      let r := exec i
      let entry : CmdLogEntry := ⟨c, r.returncode, r.stdout, r.stderr⟩
      if r.returncode ≠ 0 then ([entry], true)
      else
        let out := installLoop exec rest (i + 1)
        (entry :: out.1, out.2)

/-- Details emitted by the Build handler.  On the failed path the code
reports strategy, command log and message; on the completed path it also
reports lockfiles and the environment-manifest artifact path (the wall-clock
duration, plan hash and pip-freeze capture are oracle-dependent and carried
opaquely via `envManifestPath`/`message = none`). -/
structure BuildDetails where
  strategy : String
  commands : List CmdLogEntry
  message : Option String
  lockfiles : List String
  env_manifest : Option String
deriving DecidableEq, Repr

/-- Embedding of `_stage_build`: requires Plan's cache (fatal `RuntimeError`
otherwise), synthesizes the install commands and runs them in order; the
first non-zero exit returns a `failed` StageResult whose command log is
exactly the commands attempted so far, otherwise a `completed` result with
the full log. -/
def stageBuild (fs : PipelineFs) (co : Checkout) (exec : Nat → CmdRes) :
    Except String (StageRes BuildDetails) :=
  match fs.planCache with
  | none => .error "Plan stage must be executed before build."
  | some pd =>
      let cmds := buildInstallCommands co
      let out := installLoop exec cmds 0
      if out.2 then
        .ok
          { name := "build"
            status := "failed"
            details :=
              { strategy := pd.strategy
                commands := out.1
                message := some "Dependency installation failed."
                lockfiles := []
                env_manifest := none } }
      else
        .ok
          { name := "build"
            status := "completed"
            details :=
              { strategy := pd.strategy
                commands := out.1
                message := none
                lockfiles := pd.lockfile_sources
                env_manifest := some "env_manifest.json" } }

/-- Outcome of `ET.parse` on the coverage report when it is attempted:
the report is unparseable, parses without a root `line-rate` attribute, or
yields a numeric `line-rate` (Python float arithmetic modelled over `ℚ`). -/
inductive CovParse
  | parseError
  | noLineRate
  | lineRate (q : ℚ)
deriving DecidableEq

/-- Oracle for the four external launches of the Test handler and for the
state of the coverage report artifact after the report command ran. -/
structure TestOracle where
  collect : CmdRes
  coverageErase : CmdRes
  testRun : CmdRes
  coverageXml : CmdRes
  coverageFileExists : Bool
  coverageParse : CovParse
deriving DecidableEq

/-- Model of Python `round(x, 2)` on the coverage percentage (half-to-even
at the third decimal is irrelevant to every value this development needs,
so half-up rounding over `ℚ` stands in for float rounding). -/
def round2 (q : ℚ) : ℚ :=
  (⌊q * 100 + 1 / 2⌋ : ℚ) / 100

/-- The aggregate coverage percentage: parsed `line-rate` times 100 when the
report command exited zero, the report file exists and it parses with a
`line-rate`; otherwise 0. -/
def coveragePct (o : TestOracle) : ℚ :=
  if o.coverageXml.returncode = 0 ∧ o.coverageFileExists then
    match o.coverageParse with
    | .parseError => 0
    | .noLineRate => 0
    | .lineRate q => q * 100
  else 0

/-- The coverage block of the Test details; `error = none` models an absent
`error` key. -/
structure CoverageDetails where
  line_pct : ℚ
  report_path : String
  error : Option String
deriving DecidableEq

/-- Details emitted by the Test handler; `message = none` models an absent
`message` key. -/
structure TestDetails where
  runner : String
  discovered : Nat
  selected : Nat
  passed : Nat
  failed : Nat
  skipped : Nat
  xfailed : Nat
  coverage : CoverageDetails
  index_path : String
  logs : List String
  message : Option String
deriving DecidableEq

/-- A Test handler outcome: the StageResult plus the argv of every external
process launched, in launch order. -/
structure TestOutcome where
  result : StageRes TestDetails
  launched : List (List String)
deriving DecidableEq

/-- The non-empty stripped lines of a command's stdout, as the collection
pass's discovered node list. -/
def nonEmptyStrippedLines (s : String) : List String :=
  ((pySplitlines s).map pyStrip).filter (· ≠ "")

/-- Embedding of `_stage_test`: requires Plan's cache (fatal `RuntimeError`
otherwise).  Runs collection, `coverage erase`, the instrumented execution
and the coverage report unconditionally and in that order; parses the
summary from the execution's combined output; status is `completed` when the
execution exited zero, flipped to `failed` (with the collection message)
when collection exited non-zero; a non-zero coverage-report exit forces
`line_pct` to 0 and sets the `error` field to the report command's stripped
stderr. -/
def stageTest (fs : PipelineFs) (runner _repoId : String) (o : TestOracle) :
    Except String TestOutcome :=
  match fs.planCache with
  | none => .error "Plan stage must be executed before testing."
  | some plan =>
      let mexpr := buildMarkerExpression plan.markers_exclude
      let markerArgs := if mexpr = "" then [] else ["-m", mexpr]
      let collectCmd :=
        ["python", "-m", "pytest", "--collect-only", "-q"] ++ markerArgs
      let discovered := nonEmptyStrippedLines o.collect.stdout
      let pytestCmd :=
        ["coverage", "run", "-m", "pytest", "-q", "--maxfail", "1",
         "--durations", "30"] ++ markerArgs
      let covXmlCmd := ["coverage", "xml", "-o", "coverage.xml"]
      let counts :=
        parsePytestSummary (o.testRun.stdout ++ "\n" ++ o.testRun.stderr)
      let selected :=
        counts.passed + counts.failed + counts.errors + counts.skipped
          + counts.xfailed + counts.xpassed + counts.rerun
      let status0 :=
        if o.testRun.returncode = 0 then "completed" else "failed"
      let baseCov : CoverageDetails :=
        { line_pct := round2 (coveragePct o)
          report_path := "coverage.xml"
          error := none }
      let cov :=
        if o.coverageXml.returncode ≠ 0 then
          { baseCov with
              line_pct := 0
              error := some (pyStrip o.coverageXml.stderr) }
        else baseCov
      let status1 := if o.collect.returncode ≠ 0 then "failed" else status0
      let message :=
        if o.collect.returncode ≠ 0 then some "Pytest collection failed."
        else none
      .ok
        { result :=
            { name := "test"
              status := status1
              details :=
                { runner := runner
                  discovered := discovered.length
                  selected := selected
                  passed := counts.passed
                  failed := counts.failed + counts.errors
                  skipped := counts.skipped
                  xfailed := counts.xfailed
                  coverage := cov
                  index_path := "test_index.json"
                  logs := ["test.log.jsonl"]
                  message := message } }
          launched :=
            [collectCmd, ["coverage", "erase"], pytestCmd, covXmlCmd] }

/-- Details emitted by the Package handler. -/
structure PackageDetails where
  manifest_path : String
  artifact_count : Nat
deriving DecidableEq, Repr

/-- Embedding of `_stage_package`: reads Build's and Test's cache files
without an existence check, so an absent file raises an uncaught
`FileNotFoundError`; otherwise assembles the manifest whose artifact list is
the build env manifest, the test index, the coverage report and the test
logs, and reports its path and artifact count. -/
def stagePackage (fs : PipelineFs) : Except String (StageRes PackageDetails) :=
  match fs.buildCache with
  | none => .error "FileNotFoundError: build stage cache file is missing."
  | some bd =>
      match fs.testCache with
      | none => .error "FileNotFoundError: test stage cache file is missing."
      | some td =>
          .ok
            { name := "package"
              status := "completed"
              details :=
                { manifest_path := "repo_image_manifest.json"
                  artifact_count :=
                    (bd.env_manifest :: td.index_path
                      :: td.coverage_report_path :: td.logs).length } }

/-- Details emitted by the Publish handler. -/
structure PublishDetails where
  manifest_path : String
  image_tag : String
  pushed : Bool
deriving DecidableEq, Repr

/-- Embedding of `_stage_publish`: requires the manifest artifact written by
Package to exist (fatal `RuntimeError` otherwise; it does not look at
Package's cache file), and reports a `pending` StageResult. -/
def stagePublish (fs : PipelineFs) (repoId commit : String) :
    Except String (StageRes PublishDetails) :=
  if !fs.manifestArtifact then
    .error "Package stage must produce a manifest before publish."
  else
    .ok
      { name := "publish"
        status := "pending"
        details :=
          { manifest_path := "repo_image_manifest.json"
            image_tag := "ghcr.io/open-cwm/" ++ repoId ++ ":" ++ commit
            pushed := false } }

/-- The ordered, closed stage enumeration. -/
inductive Stage
  | discover
  | plan
  | build
  | test
  | package
  | publish
deriving DecidableEq, Repr

/-- The serialized cache-file record `{stage, status, details}` produced by
`StageResult.to_dict` and written with a deterministic sorted-key
serializer, parsed back by `json.loads`. -/
structure StoredDict (D : Type) where
  stage : String
  status : String
  details : D
deriving DecidableEq, Repr

/-- `StageResult.to_dict`. -/
def toDict {D : Type} (r : StageRes D) : StoredDict D :=
  ⟨r.name, r.status, r.details⟩

/-- `StageResult.from_dict` on a record written by the pipeline itself (all
three keys present, so the `.get` defaults are never taken). -/
def fromDict {D : Type} (d : StoredDict D) : StageRes D :=
  ⟨d.stage, d.status, d.details⟩

/-- Engine state: for each stage, the parsed content of its cache file when
that file exists. -/
structure EngineState (D : Type) where
  cache : Stage → Option (StoredDict D)

/-- Side effects of one `run_stage` call: number of handler invocations,
external process launches, and durable writes. -/
structure RunEffects where
  handlerCalls : Nat
  launches : Nat
  writes : Nat
deriving DecidableEq, Repr

/-- A handler as seen by the engine: from the current state, either a fatal
error or a StageResult together with its launch and write counts. -/
def HandlerMap (D : Type) : Type :=
  Stage → EngineState D → Except String (StageRes D × Nat × Nat)

/-- Embedding of `RepoPipeline.run_stage`: a cache hit short-circuits to
`from_dict` of the stored record with no handler invocation, no launches and
no writes; a miss invokes the handler, persists `to_dict` of its result (one
engine write) and returns it; a handler error propagates with nothing
written. -/
def runStage {D : Type} (handlers : HandlerMap D) (s : EngineState D)
    (stage : Stage) :
    Except String (StageRes D × EngineState D × RunEffects) :=
  match s.cache stage with
  | some d => .ok (fromDict d, s, ⟨0, 0, 0⟩)
  | none =>
      match handlers stage s with
      | .error e => .error e
      | .ok (r, launches, writes) =>
          .ok (r,
            ⟨fun st => if st = stage then some (toDict r) else s.cache st⟩,
            ⟨1, launches, writes + 1⟩)

/-- Whether an `Except` value is a success. -/
def exceptOk {ε α : Type} : Except ε α → Bool
  | .ok _ => true
  | .error _ => false

/-- Status of a Test handler outcome (the error text when it raised). -/
def testStatus : Except String TestOutcome → String
  | .ok o => o.result.status
  | .error e => e

/-- Message field of a Test handler outcome. -/
def testMessage : Except String TestOutcome → Option String
  | .ok o => o.result.details.message
  | .error _ => none

/-- Launched argv list of a Test handler outcome. -/
def testLaunched : Except String TestOutcome → List (List String)
  | .ok o => o.launched
  | .error _ => []

/-- Coverage error field of a Test handler outcome. -/
def testCovError : Except String TestOutcome → Option String
  | .ok o => o.result.details.coverage.error
  | .error _ => none

/-- Coverage percentage of a Test handler outcome. -/
def testCovPct : Except String TestOutcome → ℚ
  | .ok o => o.result.details.coverage.line_pct
  | .error _ => 0

/-- A probe with every descriptor present, for strategy-precedence inputs. -/
def tcAll : Toolchain :=
  ⟨true, true, false, none, true, true, [".github/workflows/ci.yml"]⟩

/-- A plan cache payload with no excluded markers. -/
def pdPip : PlanData :=
  ⟨"pip", ["requirements.txt"], []⟩

/-- A pipeline state holding Discover's and Plan's caches but neither
Build's nor Test's cache, no Package cache and no manifest artifact. -/
def fsPlanOnly : PipelineFs :=
  ⟨some tcAll, some pdPip, none, none, false, false⟩

/-- A successful empty-output process result. -/
def cmd0 : CmdRes :=
  ⟨0, "", ""⟩

/-- Test oracle: every command succeeds but the coverage report file is
absent after a zero-exit report command. -/
def oracleOkNoCov : TestOracle :=
  ⟨cmd0, cmd0, cmd0, cmd0, false, .parseError⟩

/-- Test oracle: the collection pass exits 1, everything else succeeds. -/
def oracleCollectFail : TestOracle :=
  ⟨⟨1, "", ""⟩, cmd0, cmd0, cmd0, false, .parseError⟩

/-- Launch oracle whose first command succeeds and whose second fails. -/
def execFailSecond : Nat → CmdRes :=
  fun i => if i = 0 then cmd0 else ⟨1, "", "boom"⟩

/-- A checkout holding only `requirements.txt` (two install commands). -/
def coReqOnly : Checkout :=
  ⟨["requirements.txt"], none⟩

/-- A checkout with `requirements.txt` and a manifest whose only
optional-dependency group is `test`. -/
def coReqManifest : Checkout :=
  ⟨["requirements.txt", "pyproject.toml"], some ⟨["test"], []⟩⟩

/-- A handler map over `Nat` details for engine demonstrations. -/
def demoHandlers : HandlerMap Nat :=
  fun _ _ => .ok (⟨"discover", "completed", 7⟩, 2, 3)

/-- The engine state with no cache file. -/
def emptyEngine : EngineState Nat :=
  ⟨fun _ => none⟩

/-- The engine state after Discover ran once under `demoHandlers`. -/
def onceEngine : EngineState Nat :=
  ⟨fun st => if st = Stage.discover then some ⟨"discover", "completed", 7⟩
   else none⟩

/-- A workflows directory listing whose glob blocks interleave: the `*.yml`
file sorts after the `*.yaml` file. -/
def rtInterleaved : RepoTree :=
  ⟨false, false, false, none, false, false, some ["b.yml", "a.yaml"]⟩

/-- Test oracle: the coverage report command exits 1 with noisy stderr. -/
def oracleCovFail : TestOracle :=
  ⟨cmd0, cmd0, cmd0, ⟨1, "", "  boom  "⟩, false, .parseError⟩

/-- Test oracle: the report command exits 0 and the report file exists but
is unparseable. -/
def oracleCovMalformed : TestOracle :=
  ⟨cmd0, cmd0, cmd0, cmd0, true, .parseError⟩

/-- The pipeline state with no cache file at all. -/
def fsEmpty : PipelineFs :=
  ⟨none, none, none, none, false, false⟩

/-- A pipeline state with Discover, Plan and Build caches but no Test
cache. -/
def fsBuildOnly : PipelineFs :=
  ⟨some tcAll, some pdPip, some ⟨"env_manifest.json"⟩, none, false, false⟩

/-- A pipeline state whose Package cache file is absent while the manifest
artifact exists. -/
def fsManifestOnly : PipelineFs :=
  ⟨some tcAll, some pdPip, none, none, false, true⟩

/-- A handler map over `Nat` details that always raises. -/
def demoErrHandlers : HandlerMap Nat :=
  fun _ _ => .error "boom"

theorem listCharLe_total (a : List Char) : ∀ b : List Char,
    listCharLe a b = true ∨ listCharLe b a = true := by
  induction a with
  | nil => intro b; left; rfl
  | cons c cs ih =>
    intro b
    cases b with
    | nil => right; rfl
    | cons d ds =>
      by_cases h : c = d
      · subst h
        simpa [listCharLe] using ih ds
      · rcases lt_or_gt_of_ne h with h2 | h2
        · left
          simp [listCharLe, h, h2]
        · right
          simp [listCharLe, Ne.symm h, h2]

theorem strLe_total (a b : String) : strLe a b = true ∨ strLe b a = true :=
  listCharLe_total a.data b.data

theorem insertStr_sorted (x : String) (l : List String)
    (h : isSortedStr l = true) : isSortedStr (insertStr x l) = true := by
  induction l with
  | nil => rfl
  | cons y ys ih =>
    by_cases hxy : strLe x y = true
    · simpa [insertStr, hxy, isSortedStr] using h
    · have hyx : strLe y x = true := (strLe_total x y).resolve_left hxy
      cases ys with
      | nil => simp [insertStr, hxy, isSortedStr, hyx]
      | cons z zs =>
        have hyz : strLe y z = true := by
          simp [isSortedStr] at h
          exact h.1
        have hrest : isSortedStr (z :: zs) = true := by
          simp [isSortedStr] at h ⊢
          exact h.2
        have ih2 := ih hrest
        by_cases hxz : strLe x z = true
        · simp [insertStr, hxy, hxz, isSortedStr, hyx] at ih2 ⊢
          exact ih2
        · simp [insertStr, hxy, hxz, isSortedStr, hyz] at ih2 ⊢
          exact ih2

theorem sortStr_sorted (l : List String) : isSortedStr (sortStr l) = true := by
  induction l with
  | nil => rfl
  | cons x xs ih => exact insertStr_sorted x (sortStr xs) ih

theorem insertStr_perm (x : String) (l : List String) :
    List.Perm (insertStr x l) (x :: l) := by
  induction l with
  | nil => rfl
  | cons y ys ih =>
    by_cases hxy : strLe x y = true
    · simp [insertStr, hxy]
    · have h1 : insertStr x (y :: ys) = y :: insertStr x ys := by
        simp [insertStr, hxy]
      rw [h1]
      exact (List.Perm.cons y ih).trans (List.Perm.swap x y ys)

theorem sortStr_perm (l : List String) : List.Perm (sortStr l) l := by
  induction l with
  | nil => rfl
  | cons x xs ih =>
    exact (insertStr_perm x (sortStr xs)).trans (List.Perm.cons x ih)

theorem mem_sortStr (a : String) (l : List String) :
    a ∈ sortStr l ↔ a ∈ l :=
  (sortStr_perm l).mem_iff

theorem nodup_sortStr (l : List String) (h : l.Nodup) : (sortStr l).Nodup :=
  (sortStr_perm l).nodup_iff.mpr h

theorem getLastQ_append_singleton {α : Type} (l : List α) (x : α) :
    (l ++ [x]).getLast? = some x := by
  induction l with
  | nil => rfl
  | cons a as ih =>
    cases as with
    | nil => rfl
    | cons b bs => simp [List.getLast?] at ih ⊢

/-- C10 counterexample: in a workflows directory holding `b.yml` and
`a.yaml`, the probe's `ci_workflows` list is
`[".github/workflows/b.yml", ".github/workflows/a.yaml"]`, which is not
sorted — the claim asserts the reported list is always sorted. -/
theorem detect_toolchain_workflows_not_sorted :
    (detectToolchain rtInterleaved).ci_workflows
      = [".github/workflows/b.yml", ".github/workflows/a.yaml"]
    ∧ isSortedStr (detectToolchain rtInterleaved).ci_workflows = false := by
  constructor
  · rfl
  · rfl

/-- C10 (amended): the probe's `ci_workflows` list is the sorted list of
`*.yml` workflow paths followed by the sorted list of `*.yaml` workflow
paths; each block is sorted, but the concatenation as a whole need not be. -/
theorem detect_toolchain_workflows_sorted_blocks (rt : RepoTree)
    (names : List String) (h : rt.workflowsDir = some names) :
    (detectToolchain rt).ci_workflows
      = workflowsYmlBlock names ++ workflowsYamlBlock names
    ∧ isSortedStr (workflowsYmlBlock names) = true
    ∧ isSortedStr (workflowsYamlBlock names) = true := by
  refine ⟨?_, sortStr_sorted _, sortStr_sorted _⟩
  simp [detectToolchain, h]

/-- Witness for the amended C10 theorem at a concrete two-file listing. -/
theorem detect_toolchain_workflows_sorted_blocks_witness :
    (detectToolchain rtInterleaved).ci_workflows
      = workflowsYmlBlock ["b.yml", "a.yaml"]
        ++ workflowsYamlBlock ["b.yml", "a.yaml"]
    ∧ isSortedStr (workflowsYmlBlock ["b.yml", "a.yaml"]) = true
    ∧ isSortedStr (workflowsYamlBlock ["b.yml", "a.yaml"]) = true :=
  detect_toolchain_workflows_sorted_blocks rtInterleaved ["b.yml", "a.yaml"]
    rfl

/-- C7: the strategy selector is a pure function of the probe with the fixed
precedence CI workflows, then poetry section, then environment file, then
requirements file, then the custom fallback; in particular a probe with both
CI workflows and a poetry section selects the CI-driven strategy and never
the poetry one. -/
theorem choose_strategy_precedence :
    (∀ t : Toolchain, t.ci_workflows ≠ [] → chooseStrategy t = "activ")
    ∧ (∀ t : Toolchain, t.ci_workflows = [] → t.poetry = true →
        chooseStrategy t = "poetry")
    ∧ (∀ t : Toolchain, t.ci_workflows = [] → t.poetry = false →
        t.environment_yml = true → chooseStrategy t = "conda")
    ∧ (∀ t : Toolchain, t.ci_workflows = [] → t.poetry = false →
        t.environment_yml = false → t.requirements = true →
        chooseStrategy t = "pip")
    ∧ (∀ t : Toolchain, t.ci_workflows = [] → t.poetry = false →
        t.environment_yml = false → t.requirements = false →
        chooseStrategy t = "custom")
    ∧ (∀ t : Toolchain, t.ci_workflows ≠ [] → t.poetry = true →
        chooseStrategy t = "activ" ∧ chooseStrategy t ≠ "poetry") := by
  refine ⟨?_, ?_, ?_, ?_, ?_, ?_⟩
  · intro t h
    simp [chooseStrategy, h]
  · intro t h hp
    simp [chooseStrategy, h, hp]
  · intro t h hp he
    simp [chooseStrategy, h, hp, he]
  · intro t h hp he hr
    simp [chooseStrategy, h, hp, he, hr]
  · intro t h hp he hr
    simp [chooseStrategy, h, hp, he, hr]
  · intro t h hp
    refine ⟨by simp [chooseStrategy, h], ?_⟩
    simp [chooseStrategy, h]

/-- Witness for C7: each precedence case discharged at a concrete probe. -/
theorem choose_strategy_precedence_witness :
    chooseStrategy tcAll = "activ"
    ∧ chooseStrategy ⟨true, true, false, none, true, true, []⟩ = "poetry"
    ∧ chooseStrategy ⟨true, false, false, none, true, true, []⟩ = "conda"
    ∧ chooseStrategy ⟨true, false, false, none, true, false, []⟩ = "pip"
    ∧ chooseStrategy ⟨true, false, false, none, false, false, []⟩ = "custom"
    ∧ (chooseStrategy tcAll = "activ" ∧ chooseStrategy tcAll ≠ "poetry") :=
  ⟨choose_strategy_precedence.1 tcAll (by decide),
   choose_strategy_precedence.2.1 _ rfl rfl,
   choose_strategy_precedence.2.2.1 _ rfl rfl rfl,
   choose_strategy_precedence.2.2.2.1 _ rfl rfl rfl rfl,
   choose_strategy_precedence.2.2.2.2.1 _ rfl rfl rfl rfl,
   choose_strategy_precedence.2.2.2.2.2 tcAll (by decide) rfl⟩

theorem findSummaryGo_none (ls : List String)
    (h : ∀ l ∈ ls, bannerMatch (pyStrip l) = false
      ∧ bareMatch (pyStrip l) = false) :
    findSummaryGo ls = none := by
  induction ls with
  | nil => rfl
  | cons l rest ih =>
    have hl := h l (List.mem_cons_self l rest)
    have hrest : ∀ x ∈ rest,
        bannerMatch (pyStrip x) = false ∧ bareMatch (pyStrip x) = false :=
      fun x hx => h x (List.mem_cons_of_mem l hx)
    by_cases hs : pyStrip l = ""
    · simp [findSummaryGo, hs]
      exact ih hrest
    · simp [findSummaryGo, hs, hl.1, hl.2]
      exact ih hrest

/-- C9: when no line of the output matches the banner test (a `===` prefix
together with the token `" in "`) or the bare summary pattern, the parser
returns the all-zero counts record; being a total Lean function it raises
nothing. -/
theorem parse_summary_unmatched_zero (output : String)
    (h : ∀ l ∈ pySplitlines output, bannerMatch (pyStrip l) = false
      ∧ bareMatch (pyStrip l) = false) :
    parsePytestSummary output = zeroCounts := by
  have hnone : findSummaryLine output = none := by
    apply findSummaryGo_none
    intro l hl
    exact h l (List.mem_reverse.mp hl)
  simp [parsePytestSummary, hnone]

/-- Witness for C9 at the empty string. -/
theorem parse_summary_unmatched_zero_witness :
    (∀ l ∈ pySplitlines "", bannerMatch (pyStrip l) = false
      ∧ bareMatch (pyStrip l) = false)
    ∧ parsePytestSummary "" = zeroCounts :=
  ⟨by decide, parse_summary_unmatched_zero "" (by decide)⟩

/-- C4 counterexample: the claim says the singular labels `failure` and
`pass` are folded into `failed` and `passed`; the code's synonym sets only
contain the plurals `failures` and `passes`, so `"1 failure in 0.10s"`
leaves `failed` at 0 instead of the claimed 1, and `"2 pass in 0.10s"`
leaves `passed` at 0. -/
theorem parse_summary_singular_labels_ignored :
    (parsePytestSummary "1 failure in 0.10s").failed = 0
    ∧ (parsePytestSummary "2 pass in 0.10s").passed = 0
    ∧ ¬ parsePytestSummary "1 failure in 0.10s"
        = { zeroCounts with failed := 1 } := by
  decide

/-- C4 (amended): each comma chunk `"<integer> <label>"` is folded
case-insensitively into the nine counter keys with the synonym spellings
`error`, `failures`, `passes`, `warning` and `reruns`; every other label —
including the singular `failure` and `pass` — is silently ignored. -/
theorem parse_summary_label_folding (c : PytestCounts) (n : Nat) :
    foldLabel c "failures" n = { c with failed := c.failed + n }
    ∧ foldLabel c "passes" n = { c with passed := c.passed + n }
    ∧ foldLabel c "error" n = { c with errors := c.errors + n }
    ∧ foldLabel c "warning" n = { c with warnings := c.warnings + n }
    ∧ foldLabel c "reruns" n = { c with rerun := c.rerun + n }
    ∧ foldLabel c "passed" n = { c with passed := c.passed + n }
    ∧ foldLabel c "failed" n = { c with failed := c.failed + n }
    ∧ foldLabel c "errors" n = { c with errors := c.errors + n }
    ∧ foldLabel c "skipped" n = { c with skipped := c.skipped + n }
    ∧ foldLabel c "xfailed" n = { c with xfailed := c.xfailed + n }
    ∧ foldLabel c "xpassed" n = { c with xpassed := c.xpassed + n }
    ∧ foldLabel c "rerun" n = { c with rerun := c.rerun + n }
    ∧ foldLabel c "deselected" n = { c with deselected := c.deselected + n }
    ∧ foldLabel c "warnings" n = { c with warnings := c.warnings + n }
    ∧ foldLabel c "failure" n = c
    ∧ foldLabel c "pass" n = c
    ∧ (∀ label : String, label ∉ recognizedLabels → foldLabel c label n = c)
    ∧ parsePytestSummary "2 FAILED, 1 Failure, 3 unicorns in 0.12s"
        = { zeroCounts with failed := 2 } := by
  refine ⟨?_, ?_, ?_, ?_, ?_, ?_, ?_, ?_, ?_, ?_, ?_, ?_, ?_, ?_, ?_, ?_,
    ?_, ?_⟩
  case _ => simp [foldLabel]
  case _ => simp [foldLabel]
  case _ => simp [foldLabel]
  case _ => simp [foldLabel]
  case _ => simp [foldLabel]
  case _ => simp [foldLabel]
  case _ => simp [foldLabel]
  case _ => simp [foldLabel]
  case _ => simp [foldLabel]
  case _ => simp [foldLabel]
  case _ => simp [foldLabel]
  case _ => simp [foldLabel]
  case _ => simp [foldLabel]
  case _ => simp [foldLabel]
  case _ => simp [foldLabel]
  case _ => simp [foldLabel]
  case _ =>
    intro label hmem
    simp only [recognizedLabels, List.mem_cons, List.not_mem_nil, or_false,
      not_or] at hmem
    obtain ⟨h1, h2, h3, h4, h5, h6, h7, h8, h9, h10, h11, h12, h13, h14⟩ :=
      hmem
    simp [foldLabel, h1, h2, h3, h4, h5, h6, h7, h8, h9, h10, h11, h12, h13,
      h14]
  case _ => decide

/-- Witness for the amended C4 theorem, instantiating its hypotheses at the
unrecognized label `"unicorns"`. -/
theorem parse_summary_label_folding_witness :
    foldLabel zeroCounts "failures" 4
      = { zeroCounts with failed := zeroCounts.failed + 4 }
    ∧ foldLabel zeroCounts "unicorns" 4 = zeroCounts :=
  ⟨(parse_summary_label_folding zeroCounts 4).1,
   (parse_summary_label_folding zeroCounts 4).2.2.2.2.2.2.2.2.2.2.2.2.2.2.2.2.1
     "unicorns" (by decide)⟩

/-- C8: the synthesized install list always ends with the pytest/coverage
install; the inferred extras are a sorted, deduplicated union of the
candidate groups found in the optional dependencies and the populated poetry
groups; when a manifest file exists the editable self-install with those
extras is among the commands; and for a checkout with only
`requirements.txt` plus a manifest with a `test` optional-dependency group
the list is exactly the three expected commands in order. -/
theorem install_commands_synthesis :
    (∀ co : Checkout, (buildInstallCommands co).getLast?
        = some ["python", "-m", "pip", "install", "pytest", "coverage"])
    ∧ (∀ pp : Option PyProject,
        isSortedStr (inferProjectExtras pp) = true
        ∧ (inferProjectExtras pp).Nodup
        ∧ (∀ a : String, a ∈ inferProjectExtras pp ↔
            a ∈ extrasCandidates
            ∧ ∃ p : PyProject, pp = some p
                ∧ (a ∈ p.optionalDeps ∨ a ∈ p.poetryGroups)))
    ∧ (∀ co : Checkout, "pyproject.toml" ∈ co.files →
        ["python", "-m", "pip", "install", "-e",
          editableTarget (inferProjectExtras co.pyproject)]
          ∈ buildInstallCommands co)
    ∧ buildInstallCommands coReqManifest
        = [["python", "-m", "pip", "install", "-r", "requirements.txt"],
           ["python", "-m", "pip", "install", "-e", ".[test]"],
           ["python", "-m", "pip", "install", "pytest", "coverage"]] := by
  refine ⟨?_, ?_, ?_, by decide⟩
  · intro co
    unfold buildInstallCommands
    exact getLastQ_append_singleton _ _
  · intro pp
    cases pp with
    | none =>
      refine ⟨rfl, List.nodup_nil, ?_⟩
      intro a
      simp [inferProjectExtras]
    | some p =>
      refine ⟨sortStr_sorted _, nodup_sortStr _ (List.nodup_dedup _), ?_⟩
      intro a
      simp only [inferProjectExtras, mem_sortStr, List.mem_dedup,
        List.mem_append, List.mem_filter, decide_eq_true_eq,
        Option.some.injEq]
      constructor
      · rintro (⟨hc, hm⟩ | ⟨hc, hm⟩)
        · exact ⟨hc, p, rfl, Or.inl hm⟩
        · exact ⟨hc, p, rfl, Or.inr hm⟩
      · rintro ⟨hc, q, hq, hm | hm⟩
        · subst hq
          exact Or.inl ⟨hc, hm⟩
        · subst hq
          exact Or.inr ⟨hc, hm⟩
  · intro co h
    simp [buildInstallCommands, h]

/-- Witness for C8, instantiating the editable-install conjunct at the
concrete manifest checkout. -/
theorem install_commands_synthesis_witness :
    (buildInstallCommands coReqOnly).getLast?
      = some ["python", "-m", "pip", "install", "pytest", "coverage"]
    ∧ ["python", "-m", "pip", "install", "-e",
        editableTarget (inferProjectExtras coReqManifest.pyproject)]
        ∈ buildInstallCommands coReqManifest :=
  ⟨install_commands_synthesis.1 coReqOnly,
   install_commands_synthesis.2.2.1 coReqManifest (by decide)⟩

theorem installLoop_first_failure (exec : Nat → CmdRes) :
    ∀ (cmds : List (List String)) (i k : Nat),
      k < cmds.length →
      (∀ j, j < k → (exec (i + j)).returncode = 0) →
      (exec (i + k)).returncode ≠ 0 →
      (installLoop exec cmds i).2 = true
      ∧ (installLoop exec cmds i).1.map (fun e => e.command)
          = cmds.take (k + 1) := by
  intro cmds
  induction cmds with
  | nil =>
    intro i k hk
    exact absurd hk (by simp)
  | cons c rest ih =>
    intro i k hk hzero hfail
    cases k with
    | zero =>
      have h0 : (exec i).returncode ≠ 0 := by simpa using hfail
      simp [installLoop, h0]
    | succ k2 =>
      have h0 : (exec i).returncode = 0 := by
        have h1 := hzero 0 (Nat.succ_pos k2)
        simpa using h1
      have hk2 : k2 < rest.length := by
        simpa [Nat.succ_lt_succ_iff] using hk
      have hz2 : ∀ j, j < k2 → (exec (i + 1 + j)).returncode = 0 := by
        intro j hj
        have h1 := hzero (j + 1) (by omega)
        have harith : i + (j + 1) = i + 1 + j := by omega
        rwa [harith] at h1
      have hf2 : (exec (i + 1 + k2)).returncode ≠ 0 := by
        have harith : i + (k2 + 1) = i + 1 + k2 := by omega
        rwa [harith] at hfail
      have ih2 := ih (i + 1) k2 hk2 hz2 hf2
      simp [installLoop, h0, ih2.1, ih2.2]

/-- C6: with Plan's cache present, if the first `k` install commands exit
zero and the `k`-th (0-based) exits non-zero, the Build handler returns a
`failed` StageResult whose command log lists exactly the commands attempted
up to and including the failing one — `k + 1` entries — and no later
command is launched or logged. -/
theorem build_first_failure_aborts (fs : PipelineFs) (co : Checkout)
    (exec : Nat → CmdRes) (pd : PlanData) (k : Nat)
    (hplan : fs.planCache = some pd)
    (hk : k < (buildInstallCommands co).length)
    (hzero : ∀ j, j < k → (exec j).returncode = 0)
    (hfail : (exec k).returncode ≠ 0) :
    stageBuild fs co exec
      = .ok { name := "build", status := "failed",
              details :=
                { strategy := pd.strategy
                  commands := (installLoop exec (buildInstallCommands co) 0).1
                  message := some "Dependency installation failed."
                  lockfiles := []
                  env_manifest := none } }
    ∧ (installLoop exec (buildInstallCommands co) 0).1.map
        (fun e => e.command) = (buildInstallCommands co).take (k + 1)
    ∧ (installLoop exec (buildInstallCommands co) 0).1.length = k + 1 := by
  have hz0 : ∀ j, j < k → (exec (0 + j)).returncode = 0 := by
    intro j hj
    simpa using hzero j hj
  have hf0 : (exec (0 + k)).returncode ≠ 0 := by simpa using hfail
  have hmain :=
    installLoop_first_failure exec (buildInstallCommands co) 0 k hk hz0 hf0
  refine ⟨?_, hmain.2, ?_⟩
  · simp [stageBuild, hplan, hmain.1]
  · have hlen := congrArg List.length hmain.2
    simpa [List.length_take, Nat.min_eq_left (Nat.succ_le_of_lt hk)]
      using hlen

/-- Witness for C6: the second of the two synthesized commands of the
`requirements.txt`-only checkout fails, so the log has exactly two
entries. -/
theorem build_first_failure_aborts_witness :
    stageBuild fsPlanOnly coReqOnly execFailSecond
      = .ok { name := "build", status := "failed",
              details :=
                { strategy := pdPip.strategy
                  commands :=
                    (installLoop execFailSecond
                      (buildInstallCommands coReqOnly) 0).1
                  message := some "Dependency installation failed."
                  lockfiles := []
                  env_manifest := none } }
    ∧ (installLoop execFailSecond (buildInstallCommands coReqOnly) 0).1.map
        (fun e => e.command) = (buildInstallCommands coReqOnly).take 2
    ∧ (installLoop execFailSecond
        (buildInstallCommands coReqOnly) 0).1.length = 2 :=
  build_first_failure_aborts fsPlanOnly coReqOnly execFailSecond pdPip 1
    rfl (by decide) (by decide) (by decide)

/-- C3 counterexample: with a failing collection pass (exit 1), the Test
handler still launches the instrumented execution and the coverage report —
the claim asserts no further execution happens after a collection
failure. -/
theorem stage_test_collection_failure_still_runs :
    testLaunched (stageTest fsPlanOnly "pytest" "r" oracleCollectFail)
      = [["python", "-m", "pytest", "--collect-only", "-q"],
         ["coverage", "erase"],
         ["coverage", "run", "-m", "pytest", "-q", "--maxfail", "1",
          "--durations", "30"],
         ["coverage", "xml", "-o", "coverage.xml"]]
    ∧ ["coverage", "run", "-m", "pytest", "-q", "--maxfail", "1",
        "--durations", "30"]
        ∈ testLaunched (stageTest fsPlanOnly "pytest" "r" oracleCollectFail)
    ∧ oracleCollectFail.collect.returncode ≠ 0 := by
  decide

/-- C3 (amended): a non-zero collection exit does not stop the handler — the
erase, instrumented execution and coverage-report commands are still
launched — but the resulting StageResult has status `failed` with the
collection-failed message. -/
theorem stage_test_collection_failure_amended (fs : PipelineFs)
    (runner rid : String) (o : TestOracle) (pd : PlanData)
    (hplan : fs.planCache = some pd) (hrc : o.collect.returncode ≠ 0) :
    testStatus (stageTest fs runner rid o) = "failed"
    ∧ testMessage (stageTest fs runner rid o)
        = some "Pytest collection failed."
    ∧ testLaunched (stageTest fs runner rid o)
        = [["python", "-m", "pytest", "--collect-only", "-q"]
             ++ (if buildMarkerExpression pd.markers_exclude = "" then []
                 else ["-m", buildMarkerExpression pd.markers_exclude]),
           ["coverage", "erase"],
           ["coverage", "run", "-m", "pytest", "-q", "--maxfail", "1",
            "--durations", "30"]
             ++ (if buildMarkerExpression pd.markers_exclude = "" then []
                 else ["-m", buildMarkerExpression pd.markers_exclude]),
           ["coverage", "xml", "-o", "coverage.xml"]] := by
  refine ⟨?_, ?_, ?_⟩
  · simp [stageTest, hplan, hrc, testStatus]
  · simp [stageTest, hplan, hrc, testMessage]
  · simp [stageTest, hplan, testLaunched]

/-- Witness for the amended C3 theorem at the failing-collection oracle. -/
theorem stage_test_collection_failure_amended_witness :
    testStatus (stageTest fsPlanOnly "pytest" "r" oracleCollectFail)
      = "failed"
    ∧ testMessage (stageTest fsPlanOnly "pytest" "r" oracleCollectFail)
        = some "Pytest collection failed."
    ∧ testLaunched (stageTest fsPlanOnly "pytest" "r" oracleCollectFail)
        = [["python", "-m", "pytest", "--collect-only", "-q"]
             ++ (if buildMarkerExpression pdPip.markers_exclude = "" then []
                 else ["-m", buildMarkerExpression pdPip.markers_exclude]),
           ["coverage", "erase"],
           ["coverage", "run", "-m", "pytest", "-q", "--maxfail", "1",
            "--durations", "30"]
             ++ (if buildMarkerExpression pdPip.markers_exclude = "" then []
                 else ["-m", buildMarkerExpression pdPip.markers_exclude]),
           ["coverage", "xml", "-o", "coverage.xml"]] :=
  stage_test_collection_failure_amended fsPlanOnly "pytest" "r"
    oracleCollectFail pdPip rfl (by decide)

theorem round2_zero : round2 0 = 0 := by norm_num [round2]

/-- C5 counterexample: with the coverage-report command exiting zero but the
report file absent, the reported coverage is 0 while the `error` field is
absent — the claim asserts a populated error field whenever the report is
malformed or absent. -/
theorem coverage_absent_report_no_error_field :
    testCovError (stageTest fsPlanOnly "pytest" "r" oracleOkNoCov) = none
    ∧ testCovPct (stageTest fsPlanOnly "pytest" "r" oracleOkNoCov) = 0
    ∧ testStatus (stageTest fsPlanOnly "pytest" "r" oracleOkNoCov)
        = "completed"
    ∧ oracleOkNoCov.coverageFileExists = false
    ∧ oracleOkNoCov.coverageXml.returncode = 0 := by
  have hpct : testCovPct (stageTest fsPlanOnly "pytest" "r" oracleOkNoCov)
      = round2 0 := rfl
  exact ⟨rfl, hpct.trans round2_zero, rfl, rfl, rfl⟩

/-- C5 (amended): the coverage `error` field is set — to the report
command's stripped stderr — exactly when that command exits non-zero, and
`line_pct` is 0 in that case; a zero-exit report command with an absent or
unparseable report file degrades `line_pct` to 0 with no error field; and
the stage status stays `completed` whenever execution and collection both
exited zero. -/
theorem coverage_degradation_amended (fs : PipelineFs) (runner rid : String)
    (o : TestOracle) (pd : PlanData) (hplan : fs.planCache = some pd) :
    (o.coverageXml.returncode ≠ 0 →
      testCovError (stageTest fs runner rid o)
          = some (pyStrip o.coverageXml.stderr)
      ∧ testCovPct (stageTest fs runner rid o) = 0)
    ∧ (o.coverageXml.returncode = 0 → o.coverageFileExists = false →
      testCovError (stageTest fs runner rid o) = none
      ∧ testCovPct (stageTest fs runner rid o) = 0)
    ∧ (o.coverageXml.returncode = 0 → o.coverageParse = .parseError →
      testCovError (stageTest fs runner rid o) = none
      ∧ testCovPct (stageTest fs runner rid o) = 0)
    ∧ (o.testRun.returncode = 0 → o.collect.returncode = 0 →
      testStatus (stageTest fs runner rid o) = "completed") := by
  refine ⟨?_, ?_, ?_, ?_⟩
  · intro hrc
    constructor
    · simp [stageTest, hplan, hrc, testCovError]
    · simp [stageTest, hplan, hrc, testCovPct]
  · intro hrc hex
    have hpct : coveragePct o = 0 := by
      simp [coveragePct, hex]
    constructor
    · simp [stageTest, hplan, hrc, testCovError]
    · simp [stageTest, hplan, hrc, testCovPct, hpct, round2_zero]
  · intro hrc hparse
    have hpct : coveragePct o = 0 := by
      unfold coveragePct
      split_ifs with hcond
      · simp [hparse]
      · rfl
    constructor
    · simp [stageTest, hplan, hrc, testCovError]
    · simp [stageTest, hplan, hrc, testCovPct, hpct, round2_zero]
  · intro hrun hcol
    simp [stageTest, hplan, hrun, hcol, testStatus]

/-- Witness for the amended C5 theorem across its three coverage cases and
the completed-status case. -/
theorem coverage_degradation_amended_witness :
    (testCovError (stageTest fsPlanOnly "pytest" "r" oracleCovFail)
        = some (pyStrip oracleCovFail.coverageXml.stderr)
      ∧ testCovPct (stageTest fsPlanOnly "pytest" "r" oracleCovFail) = 0)
    ∧ (testCovError (stageTest fsPlanOnly "pytest" "r" oracleOkNoCov) = none
      ∧ testCovPct (stageTest fsPlanOnly "pytest" "r" oracleOkNoCov) = 0)
    ∧ (testCovError (stageTest fsPlanOnly "pytest" "r" oracleCovMalformed)
        = none
      ∧ testCovPct (stageTest fsPlanOnly "pytest" "r" oracleCovMalformed)
          = 0)
    ∧ testStatus (stageTest fsPlanOnly "pytest" "r" oracleOkNoCov)
        = "completed" :=
  ⟨(coverage_degradation_amended fsPlanOnly "pytest" "r" oracleCovFail
      pdPip rfl).1 (by decide),
   (coverage_degradation_amended fsPlanOnly "pytest" "r" oracleOkNoCov
      pdPip rfl).2.1 rfl rfl,
   (coverage_degradation_amended fsPlanOnly "pytest" "r" oracleCovMalformed
      pdPip rfl).2.2.1 rfl rfl,
   (coverage_degradation_amended fsPlanOnly "pytest" "r" oracleOkNoCov
      pdPip rfl).2.2.2 rfl rfl⟩

/-- C2 counterexample: the Test handler runs to a successful StageResult in
a state whose Build cache file is absent (only Plan's cache exists), and the
Publish handler succeeds in a state whose Package cache file is absent but
whose manifest artifact exists — the claim asserts each handler raises a
fatal precondition error when its immediate predecessor's cache file is
missing. -/
theorem stage_handlers_skip_predecessor_checks :
    fsPlanOnly.buildCache = none
    ∧ exceptOk (stageTest fsPlanOnly "pytest" "r" oracleOkNoCov) = true
    ∧ fsManifestOnly.packageCache = false
    ∧ exceptOk (stagePublish fsManifestOnly "r" "c") = true := by
  exact ⟨rfl, rfl, rfl, rfl⟩

/-- C2 (amended): Plan requires Discover's cache and Build requires Plan's;
Test also requires only Plan's cache (given Plan's cache it succeeds no
matter whether Build's exists); Package fails fatally — an uncaught file
read error — when Build's or Test's cache is absent; Publish requires the
manifest artifact produced by Package rather than Package's cache file; and
a handler error makes the engine propagate it with no StageResult
written. -/
theorem stage_handler_preconditions :
    (∀ (fs : PipelineFs) (runner : String) (mx : List String)
        (t : Option Nat), fs.discoverCache = none →
      stagePlan fs runner mx t
        = .error "Discover stage must be executed before planning.")
    ∧ (∀ (fs : PipelineFs) (co : Checkout) (exec : Nat → CmdRes),
        fs.planCache = none →
      stageBuild fs co exec
        = .error "Plan stage must be executed before build.")
    ∧ (∀ (fs : PipelineFs) (runner rid : String) (o : TestOracle),
        fs.planCache = none →
      stageTest fs runner rid o
        = .error "Plan stage must be executed before testing.")
    ∧ (∀ (fs : PipelineFs) (runner rid : String) (o : TestOracle)
        (pd : PlanData), fs.planCache = some pd →
      exceptOk (stageTest fs runner rid o) = true)
    ∧ (∀ fs : PipelineFs, fs.buildCache = none →
      stagePackage fs
        = .error "FileNotFoundError: build stage cache file is missing.")
    ∧ (∀ (fs : PipelineFs) (bd : BuildData), fs.buildCache = some bd →
        fs.testCache = none →
      stagePackage fs
        = .error "FileNotFoundError: test stage cache file is missing.")
    ∧ (∀ (fs : PipelineFs) (rid c : String), fs.manifestArtifact = false →
      stagePublish fs rid c
        = .error "Package stage must produce a manifest before publish.")
    ∧ (∀ (D : Type) (handlers : HandlerMap D) (s : EngineState D)
        (stage : Stage) (e : String), s.cache stage = none →
        handlers stage s = .error e →
      runStage handlers s stage = .error e) := by
  refine ⟨?_, ?_, ?_, ?_, ?_, ?_, ?_, ?_⟩
  · intro fs runner mx t h
    simp [stagePlan, h]
  · intro fs co exec h
    simp [stageBuild, h]
  · intro fs runner rid o h
    simp [stageTest, h]
  · intro fs runner rid o pd h
    simp [stageTest, h, exceptOk]
  · intro fs h
    simp [stagePackage, h]
  · intro fs bd hb ht
    simp [stagePackage, hb, ht]
  · intro fs rid c h
    simp [stagePublish, h]
  · intro D handlers s stage e h1 h2
    simp [runStage, h1, h2]

/-- Witness for the amended C2 theorem: every precondition case discharged
at a concrete pipeline state. -/
theorem stage_handler_preconditions_witness :
    stagePlan fsEmpty "pytest" [] none
      = .error "Discover stage must be executed before planning."
    ∧ stageBuild fsEmpty coReqOnly execFailSecond
        = .error "Plan stage must be executed before build."
    ∧ stageTest fsEmpty "pytest" "r" oracleOkNoCov
        = .error "Plan stage must be executed before testing."
    ∧ exceptOk (stageTest fsPlanOnly "pytest" "r" oracleOkNoCov) = true
    ∧ stagePackage fsEmpty
        = .error "FileNotFoundError: build stage cache file is missing."
    ∧ stagePackage fsBuildOnly
        = .error "FileNotFoundError: test stage cache file is missing."
    ∧ stagePublish fsEmpty "r" "c"
        = .error "Package stage must produce a manifest before publish."
    ∧ runStage demoErrHandlers emptyEngine Stage.discover = .error "boom" :=
  ⟨stage_handler_preconditions.1 fsEmpty "pytest" [] none rfl,
   stage_handler_preconditions.2.1 fsEmpty coReqOnly execFailSecond rfl,
   stage_handler_preconditions.2.2.1 fsEmpty "pytest" "r" oracleOkNoCov rfl,
   stage_handler_preconditions.2.2.2.1 fsPlanOnly "pytest" "r" oracleOkNoCov
     pdPip rfl,
   stage_handler_preconditions.2.2.2.2.1 fsEmpty rfl,
   stage_handler_preconditions.2.2.2.2.2.1 fsBuildOnly ⟨"env_manifest.json"⟩
     rfl rfl,
   stage_handler_preconditions.2.2.2.2.2.2.1 fsEmpty "r" "c" rfl,
   stage_handler_preconditions.2.2.2.2.2.2.2 Nat demoErrHandlers emptyEngine
     Stage.discover "boom" rfl rfl⟩

/-- C1: a cache hit makes `run_stage` return the stored record through
`from_dict` with the state unchanged, no handler invocation, no launches
and no writes; consequently running the same stage twice in succession
returns the same StageResult the second time with no handler invocation,
no launches and no writes (byte-identity of the cache file follows from the
deterministic sorted-key serializer). -/
theorem run_stage_cache_idempotent (D : Type) (handlers : HandlerMap D)
    (s : EngineState D) (stage : Stage) :
    (∀ d : StoredDict D, s.cache stage = some d →
      runStage handlers s stage = .ok (fromDict d, s, ⟨0, 0, 0⟩))
    ∧ (∀ (r1 : StageRes D) (s1 : EngineState D) (e1 : RunEffects),
        runStage handlers s stage = .ok (r1, s1, e1) →
        runStage handlers s1 stage = .ok (r1, s1, ⟨0, 0, 0⟩)) := by
  constructor
  · intro d hd
    simp [runStage, hd]
  · intro r1 s1 e1 h
    unfold runStage at h ⊢
    cases hc : s.cache stage with
    | some d =>
      rw [hc] at h
      simp only [Except.ok.injEq, Prod.mk.injEq] at h
      obtain ⟨hr, hs, he⟩ := h
      subst hr
      subst hs
      rw [hc]
    | none =>
      rw [hc] at h
      cases hh : handlers stage s with
      | error e =>
        rw [hh] at h
        exact absurd h (by simp)
      | ok rv =>
        obtain ⟨r, launches, writes⟩ := rv
        rw [hh] at h
        simp only [Except.ok.injEq, Prod.mk.injEq] at h
        obtain ⟨hr, hs, he⟩ := h
        subst hr
        subst hs
        simp [fromDict, toDict]

/-- Witness for C1: a first run under `demoHandlers` populates the cache;
the second run returns the identical StageResult with zero handler calls,
launches and writes. -/
theorem run_stage_cache_idempotent_witness :
    runStage demoHandlers emptyEngine Stage.discover
      = .ok (⟨"discover", "completed", 7⟩, onceEngine, ⟨1, 2, 4⟩)
    ∧ runStage demoHandlers onceEngine Stage.discover
      = .ok (⟨"discover", "completed", 7⟩, onceEngine, ⟨0, 0, 0⟩) :=
  ⟨rfl,
   (run_stage_cache_idempotent Nat demoHandlers emptyEngine Stage.discover).2
     ⟨"discover", "completed", 7⟩ onceEngine ⟨1, 2, 4⟩ rfl⟩

end Orchestrator
